import Mathlib

/-!
Verification development for the `automated_data_scientist` repository.

This file shallowly embeds the execution / retry / plan-update core of the
repository and proves properties of the embedded definitions:

* `execution.py` (`CodeExecutor.execute_code`, `_prepare_code`,
  `_save_figures`, `_sanitize_text`, `review_and_refine`);
* `automated_data_scientist.py` (`execute_single_analysis`, the retry loop
  at lines 134-167 and the field write-back at lines 182-186);
* `analysis_planning.py` (`update_plan`, `save_plan_to_file`,
  `summarize_data`);
* `code_generation.py` (`sanitize_code`, `parameterize_code`,
  `validate_code`);
* `config.py` (`CODE_EXECUTION_TIMEOUT`).

A code unit handed to the sandbox is modelled by its observable behaviour
(`CodeBehavior`): the text it prints, whether it raises and with which
message, the value it assigns to the `result` binding, the matplotlib
figures it leaves open on the process-wide surface, and its wall-clock
duration.  The matplotlib surface (`plt`) is modelled as the list of open
figures, threaded explicitly through the sandbox call.
-/

namespace AutoDS

/-- Python string slice `s[:n]` (strings as character sequences). -/
def pyTake (n : Nat) (s : String) : String := String.mk (s.data.take n)

/-- One open matplotlib figure: the structural data read by
`CodeExecutor._save_figures` (title, axis labels, line count, legend texts;
`legends = none` models `ax.get_legend()` returning `None`). -/
structure Fig where
  title : String
  xLabel : String
  yLabel : String
  numLines : Nat
  legends : Option (List String)
  deriving DecidableEq

/-- `CodeExecutor._sanitize_text`: `text.replace('\r', '')`. -/
def sanitize_text (s : String) : String := String.mk (s.data.filter (fun c => c ≠ '\r'))

/-- Metadata extracted for one figure by `CodeExecutor._save_figures`. -/
structure FigMeta where
  title : String
  x_label : String
  y_label : String
  num_lines : Nat
  legends : List String
  deriving DecidableEq

/-- Metadata of one figure, as built in the loop body of `_save_figures`. -/
def metaOf (f : Fig) : FigMeta :=
  { title := sanitize_text f.title
    x_label := sanitize_text f.xLabel
    y_label := sanitize_text f.yLabel
    num_lines := f.numLines
    legends := (f.legends.getD []).map sanitize_text }

/-- The figure directory `output_path / "figures"` of `CodeExecutor.__init__`
(with the default output path). -/
def figure_dir : String := "output/figures"

/-- File path for the `i`-th figure of one capture call:
`self.figure_dir / f"figure_{i}.png"`. -/
def figurePath (i : Nat) : String := figure_dir ++ "/figure_" ++ toString i ++ ".png"

/-- `CodeExecutor._save_figures`: enumerates the figures currently open on the
surface, saves the `i`-th to `figure_dir/figure_<i>.png` (appending the path),
extracts its metadata, and closes it (`plt.close(fig)`), so the loop leaves the
surface empty.  Returns the paths appended by this call, the metadata list and
the surface state after the call. -/
def save_figures (plt : List Fig) : List String × List FigMeta × List Fig :=
  ((List.range plt.length).map figurePath, plt.map metaOf, [])

/-- Observable behaviour of one code unit run by the sandbox:
`printed` is the text it writes to stdout/stderr before finishing or raising,
`raises = some e` means the unit raises an exception with `str(e) = e`,
`resultVar` is the value bound to `result` on normal completion,
`figuresOpened` are the figures it opens on the shared matplotlib surface,
`duration` is its wall-clock running time in seconds. -/
structure CodeBehavior where
  printed : String
  raises : Option String
  resultVar : Option String
  figuresOpened : List Fig
  duration : Nat
  deriving DecidableEq

/-- The value returned by `CodeExecutor.execute_code` together with the
matplotlib surface it leaves behind.  `result`, `output`, `figurePaths` are
the components of the returned tuple; `plt` is the set of figures still open
after the call; `raised = true` would mean the call propagated an exception
to its caller. -/
structure SandboxResult where
  result : Option String
  output : String
  figurePaths : List String
  plt : List Fig
  raised : Bool
  deriving DecidableEq

/-- `CodeExecutor.execute_code` (execution.py lines 27-56), composed with
`_prepare_code` (lines 70-83) and `review_and_refine`/`_save_figures`.

The code unit is wrapped by `_prepare_code` in a try/except that prints
`"Error during code execution: {str(e)}"` and `"Traceback: {format_exc()}"`
and then re-raises; `tb` models `traceback.format_exc()` as a function of the
exception message.  `execute_code` redirects stdout/stderr into a buffer and
runs the prepared code:

* if the unit raises, the outer `except` sets `result = None`; the figures the
  unit opened stay on the surface (`review_and_refine` is only reached on
  normal completion) and no paths are collected;
* on normal completion, `review_and_refine` calls `_save_figures`, which
  drains the surface into numbered files, and `result` is read from the
  namespace (`global_vars.get('result', None)`).

In both cases the exception is not propagated (`raised := false`): the outer
`except Exception` absorbs it.  `duration` is never consulted — the source
contains no timeout mechanism.  (The `save_to_notebook` append, a pure file
side effect, is not part of the returned value and is not modelled.) -/
def execute_code (tb : String → String) (b : CodeBehavior) (plt0 : List Fig) :
    SandboxResult :=
  let pltExec := plt0 ++ b.figuresOpened
  match b.raises with
  | some e =>
    { result := none
      output := b.printed ++ "Error during code execution: " ++ e ++ "\n" ++
        "Traceback: " ++ tb e ++ "\n"
      figurePaths := []
      plt := pltExec
      raised := false }
  | none =>
    { result := b.resultVar
      output := b.printed
      figurePaths := (save_figures pltExec).1
      plt := (save_figures pltExec).2.2
      raised := false }

/-- The `(result, output, figure_paths)` tuple seen by the caller of
`CodeExecutor.execute_code`. -/
structure SandboxTriple where
  result : Option String
  output : String
  figurePaths : List String
  deriving DecidableEq

/-- Projection of a sandbox call onto the tuple its caller receives. -/
def tripleOf (r : SandboxResult) : SandboxTriple :=
  { result := r.result, output := r.output, figurePaths := r.figurePaths }

/-- Terminal state of the per-step retry state machine. -/
inductive StepEnd where
  | completed
  | exhausted (errMsg : String)
  | noAttempt
  deriving DecidableEq

/-- Result of the retry loop of `execute_single_analysis`
(automated_data_scientist.py lines 134-167): whether the loop set the step
status to `completed`, the final `result`/`output`/`figure_paths` locals, the
sequence of code units passed to `execute_code` (so `sandboxTrace.length` is
the number of sandbox invocations), the number of `refine_code` calls, and the
terminal state reached. -/
structure RetryOut where
  setCompleted : Bool
  result : Option String
  output : String
  figurePaths : List String
  sandboxTrace : List String
  refinerCalls : Nat
  ended : StepEnd
  deriving DecidableEq

/-- The retry loop of `execute_single_analysis` (lines 134-167):
`for attempt in range(max_attempts)` with the sandbox call, the plot-file
asserts and the status update inside a `try`.  The sandbox collaborator `S`
returns `Except.error e` when the attempt raises an exception with message
`e` (this is how the repository's own test `test_code_execution_retry` mocks
`execute_code`) and `Except.ok` with the returned tuple otherwise.

* On success: `analysis['status'] = 'completed'` and `break`.
* On failure with `attempt < max_attempts - 1`: `code = refine_code(code, e)`
  and the loop continues.
* On failure at the last attempt:
  `result, output, figure_paths = None, f"Execution failed: {str(e)}", []`.

The second argument of the recursion is the number of remaining attempts; the
loop never raises to its caller (the function is total). -/
def retryExec (S : String → Except String SandboxTriple)
    (refine : String → String → String) : String → Nat → RetryOut
  | _, 0 =>
    { setCompleted := false, result := none, output := "", figurePaths := []
      sandboxTrace := [], refinerCalls := 0, ended := StepEnd.noAttempt }
  | code, n + 1 =>
    match S code with
    | Except.ok t =>
      { setCompleted := true, result := t.result, output := t.output
        figurePaths := t.figurePaths, sandboxTrace := [code]
        refinerCalls := 0, ended := StepEnd.completed }
    | Except.error e =>
      match n with
      | 0 =>
        { setCompleted := false, result := none
          output := "Execution failed: " ++ e, figurePaths := []
          sandboxTrace := [code], refinerCalls := 0
          ended := StepEnd.exhausted e }
      | m + 1 =>
        let r := retryExec S refine (refine code e) (m + 1)
        { r with sandboxTrace := code :: r.sandboxTrace
                 refinerCalls := r.refinerCalls + 1 }

/-- One analysis-plan step: the dictionary fields used by the core
(`name`, `description`, `expected_insights`, `focus`, `status` from the
Generator, plus the fields written back by `execute_single_analysis`;
`none` models an absent key). -/
structure AnalysisStep where
  name : String
  description : String
  expected_insights : String
  focus : String
  status : String
  result : Option String := none
  output : Option String := none
  figure_paths : Option (List String) := none
  interpretation : Option String := none
  deriving DecidableEq

/-- `execute_single_analysis` restricted to one step: run the retry loop on
the generated code, then write the outcome fields back into the step record
(lines 149-151 and 182-186).  `interp` is the text returned by the external
`interpret_results` collaborator. -/
def execute_single_analysis_step (S : String → Except String SandboxTriple)
    (refine : String → String → String) (code : String) (interp : String)
    (st : AnalysisStep) : AnalysisStep :=
  let r := retryExec S refine code 3
  { st with
    status := if r.setCompleted then "completed" else st.status
    result := r.result
    output := some r.output
    figure_paths := some r.figurePaths
    interpretation := some interp }

/-- `AnalysisPlanner.update_plan` (analysis_planning.py lines 116-180), after
the API call: `updated_plan_json.get("analysis_steps", current_plan)`.
`respSteps = some l` models a parsed response whose `analysis_steps` key holds
the step list `l`; `none` models a response without that key.  The current
plan is used only as the `.get` default (and as prompt text): the proposal is
returned verbatim. -/
def update_plan (current : List AnalysisStep)
    (respSteps : Option (List AnalysisStep)) : List AnalysisStep :=
  respSteps.getD current

/-- Modelled from the spec: the additive `PlanStore.applyUpdate` merge policy
of spec section 4.4 — steps of the current plan are copied unchanged, step
names present in both are not overwritten by the proposal, and proposal steps
with new names are appended with status `pending`.  This definition follows
the spec's words (it has no counterpart in the source) and exists only to be
compared with `update_plan`. -/
def applyUpdateSpec (current proposal : List AnalysisStep) : List AnalysisStep :=
  current ++
    (proposal.filter (fun p => current.all (fun c => !(c.name == p.name)))).map
      (fun p => { p with status := "pending" })

/-- `self.key_findings.extend(...)` (automated_data_scientist.py line 189):
the ledger stores each new finding as given. -/
def extend_key_findings (ledger newFindings : List String) : List String :=
  ledger ++ newFindings

/-- The local `max_length` of `AnalysisPlanner.summarize_data`. -/
def summarize_max_length : Nat := 1000000

/-- The truncation marker appended by `summarize_data`. -/
def truncMarker : String := "...(truncated)"

/-- One current-plan line of `summarize_data`. -/
def renderPlanLine (st : AnalysisStep) : String :=
  "- " ++ st.name ++ " (Status: " ++ st.status ++ ")\n"

/-- One completed-analysis line of `summarize_data`:
`analysis.get('interpretation', 'No interpretation available')[:200]`. -/
def renderCompletedLine (a : AnalysisStep) : String :=
  "- " ++ a.name ++ ": " ++
    pyTake 200 (a.interpretation.getD "No interpretation available") ++ "...\n"

/-- One key-finding line of `summarize_data`: `f"- {finding[:200]}...\n"`. -/
def renderFindingLine (f : String) : String :=
  "- " ++ pyTake 200 f ++ "...\n"

/-- `AnalysisPlanner.summarize_data` (analysis_planning.py lines 221-234):
builds the three sections, then truncates the whole summary to `max_length`
characters and appends `"...(truncated)"` when it is longer. -/
def summarize_data (current completed : List AnalysisStep)
    (key_findings : List String) : String :=
  let s := "Current Plan Summary:\n" ++
    String.join (current.map renderPlanLine) ++
    "\nCompleted Analyses Summary:\n" ++
    String.join (completed.map renderCompletedLine) ++
    "\nKey Findings:\n" ++
    String.join (key_findings.map renderFindingLine)
  if summarize_max_length < s.length then
    pyTake summarize_max_length s ++ truncMarker
  else s

/-- Content of a file written by the plan persistence: `save_plan_to_file`
serializes exactly the JSON object `{"tasks": serializable_tasks}` (the
`json.dumps`/`json.loads` round trip with `default=str` is the identity on
the string-valued step fields modelled here). -/
inductive PlanContent where
  | tasksObj (tasks : List AnalysisStep)
  deriving DecidableEq

/-- `self.plan_file = Path(self.output_path) / "analysis_plan.json"` with the
default output path. -/
def plan_file : String := "output/analysis_plan.json"

/-- Writing a file: the content at `p` is replaced, other paths are kept.
The file system is an association list from path to content. -/
def writeFile (fs : List (String × PlanContent)) (p : String)
    (c : PlanContent) : List (String × PlanContent) :=
  (p, c) :: fs.filter (fun q => !(q.1 == p))

/-- `AnalysisPlanner.save_plan_to_file` (analysis_planning.py lines 216-219):
`json.dump({"tasks": serializable_tasks}, f)` over an `open(self.plan_file,
'w')` — a single overwriting write of the plan file, and nothing else. -/
def save_plan_to_file (tasks : List AnalysisStep)
    (fs : List (String × PlanContent)) : List (String × PlanContent) :=
  writeFile fs plan_file (PlanContent.tasksObj tasks)

/-- Python `needle in hay` on a list of characters. -/
def listContains (needle : List Char) : List Char → Bool
  | [] => needle.isEmpty
  | c :: rest => needle.isPrefixOf (c :: rest) || listContains needle rest

/-- Python substring test `needle in hay`. -/
def pyInStr (needle hay : String) : Bool := listContains needle.data hay.data

/-- The blacklist of `CodeGenerator.validate_code`. -/
def forbidden_functions : List String :=
  [ "eval", "exec", "os.system", "subprocess.run", "__import__"]

/-- `CodeGenerator.validate_code` (code_generation.py lines 180-189): returns
`false` when any forbidden substring occurs in the code, `true` otherwise. -/
def validate_code (code : String) : Bool :=
  !(forbidden_functions.any (fun f => pyInStr f code))

/-- The apostrophe character as a one-character string. -/
def aposStr : String := String.mk [Char.ofNat 39]

/-- The backtick character as a one-character string. -/
def backtickStr : String := String.mk [Char.ofNat 96]

/-- The `'''` marker removed by `sanitize_code`. -/
def tripleQuote : String := aposStr ++ aposStr ++ aposStr

/-- `CodeGenerator.sanitize_code` (code_generation.py lines 66-89): replaces
backticks with apostrophes, strips `'''python` and `'''` markers, round-trips
the code through `ast.parse`/`ast.unparse` (modelled by the normalizer
`astNorm`, since Python AST semantics are outside this embedding), and makes
the code end with a newline. -/
def sanitize_code (astNorm : String → String) (code : String) : String :=
  let s1 := code.replace backtickStr aposStr
  let s2 := (s1.replace (tripleQuote ++ "python") "").replace tripleQuote ""
  let s3 := astNorm s2
  if s3.endsWith "\n" then s3 else s3 ++ "\n"

/-- `CodeGenerator.parameterize_code` (code_generation.py lines 91-98). -/
def parameterize_code (code : String) : String :=
  code.replace "data.plot(" "plot_data(data, plot_type=plot_type, "

/-- `CodeGenerator.generate_code` (code_generation.py lines 52-64) after the
API call returned `resp`: `parameterize_code(sanitize_code(resp))`.  No
validation of any kind is applied to the code. -/
def generate_code_model (astNorm : String → String) (resp : String) : String :=
  parameterize_code (sanitize_code astNorm resp)

/-- `config.CODE_EXECUTION_TIMEOUT = 300` (config.py line 24): "Maximum time
(in seconds) allowed for a single code execution". -/
def CODE_EXECUTION_TIMEOUT : Nat := 300

/-- A concrete traceback renderer (`traceback.format_exc()` stand-in). -/
def tbT : String → String := fun _ => "T"

/-- A sandbox collaborator that raises `Exception("boom")` on every attempt. -/
def SboomFail : String → Except String SandboxTriple :=
  fun _ => Except.error "boom"

/-- A refiner that returns the code unchanged. -/
def refineKeep : String → String → String := fun c _ => c

/-- A refiner that appends a character, so successive attempts run distinct
code units. -/
def refineX : String → String → String := fun c _ => c ++ "x"

/-- A sandbox collaborator that (combined with `refineX` and initial code
`"c"`) fails on attempts 1 and 2 and succeeds on attempt 3. -/
def SthirdOk : String → Except String SandboxTriple :=
  fun c => if c = "cxx" then Except.ok { result := some "r", output := "out", figurePaths := [] }
    else Except.error "boom"

/-- A code unit that raises `Exception("boom")` after printing nothing and
opening no figures. -/
def bBoom : CodeBehavior :=
  { printed := "", raises := some "boom", resultVar := none
    figuresOpened := [], duration := 0 }

/-- The real sandbox (`CodeExecutor.execute_code`) applied to the failing
unit `bBoom` on an empty surface, wrapped as the collaborator seen by the
retry loop of `execute_single_analysis`: `execute_code` catches the failure
internally, so the call returns its tuple normally (`Except.ok`). -/
def SrealBoom : String → Except String SandboxTriple :=
  fun _ => Except.ok (tripleOf (execute_code tbT bBoom []))

/-- A pending step before execution. -/
def step0 : AnalysisStep :=
  { name := "step1", description := "d", expected_insights := "e"
    focus := "f", status := "pending" }

/-- A code unit that raises `Exception("X")` without printing or plotting. -/
def bFail : CodeBehavior :=
  { printed := "", raises := some "X", resultVar := none
    figuresOpened := [], duration := 0 }

/-- A code unit that completes normally, assigns no `result` binding, opens
no figures, and prints exactly the text the `_prepare_code` wrapper would
print for `bFail`. -/
def bOk : CodeBehavior :=
  { printed := "Error during code execution: X\nTraceback: T\n"
    raises := none, resultVar := none, figuresOpened := [], duration := 0 }

/-- A code unit that runs for 301 seconds — longer than
`CODE_EXECUTION_TIMEOUT` — and then completes normally. -/
def bLong : CodeBehavior :=
  { printed := "hi\n", raises := none, resultVar := some "v"
    figuresOpened := [], duration := 301 }

/-- A concrete open figure. -/
def fig1 : Fig :=
  { title := "t", xLabel := "x", yLabel := "y", numLines := 1, legends := none }

/-- A code unit that opens one figure and then raises mid-plot. -/
def bPlotFail : CodeBehavior :=
  { printed := "", raises := some "mid", resultVar := none
    figuresOpened := [fig1], duration := 0 }

/-- A completed step with recorded results, as stored in the current plan. -/
def stepA_done : AnalysisStep :=
  { name := "a", description := "d", expected_insights := "e", focus := "f"
    status := "completed", result := some "r", output := some "out"
    figure_paths := some [], interpretation := some "i" }

/-- A Generator-proposed step with the same name as `stepA_done` but
different fields. -/
def stepA_new : AnalysisStep :=
  { name := "a", description := "d2", expected_insights := "e2"
    focus := "f2", status := "pending" }

/-- A 500-character finding. -/
def f500 : String := String.mk (List.replicate 500 'a')

/-- A file system in which a prior plan snapshot exists at the plan path. -/
def fs0 : List (String × PlanContent) :=
  [(plan_file, PlanContent.tasksObj [stepA_done])]

/-- A code unit that completes normally with nothing printed, no result
binding and no figures of its own. -/
def bNoop : CodeBehavior :=
  { printed := "", raises := none, resultVar := none
    figuresOpened := [], duration := 0 }

/-- A code unit containing the blacklisted substring `os.system`. -/
def evilCode : String := "import os\nresult = os.system(x)\n"

/-- A code unit containing no blacklisted substring. -/
def benignCode : String := "result = df.describe()\n"

/-- Length of a Python slice `s[:n]`. -/
theorem length_pyTake (n : Nat) (s : String) :
    (pyTake n s).length = min n s.length := by
  show (s.data.take n).length = min n s.data.length
  exact List.length_take n s.data

/-- One unfolding of the retry loop at a positive number of remaining
attempts. -/
theorem retryExec_succ (S : String → Except String SandboxTriple)
    (refine : String → String → String) (code : String) (n : Nat) :
    retryExec S refine code (n + 1) =
      match S code with
      | Except.ok t =>
        { setCompleted := true, result := t.result, output := t.output
          figurePaths := t.figurePaths, sandboxTrace := [code]
          refinerCalls := 0, ended := StepEnd.completed }
      | Except.error e =>
        match n with
        | 0 =>
          { setCompleted := false, result := none
            output := "Execution failed: " ++ e, figurePaths := []
            sandboxTrace := [code], refinerCalls := 0
            ended := StepEnd.exhausted e }
        | m + 1 =>
          let r := retryExec S refine (refine code e) (m + 1)
          { r with sandboxTrace := code :: r.sandboxTrace
                   refinerCalls := r.refinerCalls + 1 } := by
  conv_lhs => rw [retryExec]

/-- A successful attempt ends the loop at once. -/
theorem retryExec_ok (S : String → Except String SandboxTriple)
    (refine : String → String → String) (code : String) (n : Nat)
    (t : SandboxTriple) (h : S code = Except.ok t) :
    retryExec S refine code (n + 1) =
      { setCompleted := true, result := t.result, output := t.output
        figurePaths := t.figurePaths, sandboxTrace := [code]
        refinerCalls := 0, ended := StepEnd.completed } := by
  rw [retryExec_succ, h]

/-- A failing attempt with no attempt remaining after it ends the loop
Exhausted. -/
theorem retryExec_err_last (S : String → Except String SandboxTriple)
    (refine : String → String → String) (code : String) (e : String)
    (h : S code = Except.error e) :
    retryExec S refine code 1 =
      { setCompleted := false, result := none
        output := "Execution failed: " ++ e, figurePaths := []
        sandboxTrace := [code], refinerCalls := 0
        ended := StepEnd.exhausted e } := by
  rw [retryExec_succ S refine code 0, h]

/-- A failing attempt with attempts remaining refines the code and loops. -/
theorem retryExec_err_cont (S : String → Except String SandboxTriple)
    (refine : String → String → String) (code : String) (e : String) (n : Nat)
    (h : S code = Except.error e) :
    retryExec S refine code (n + 2) =
      { retryExec S refine (refine code e) (n + 1) with
        sandboxTrace :=
          code :: (retryExec S refine (refine code e) (n + 1)).sandboxTrace
        refinerCalls :=
          (retryExec S refine (refine code e) (n + 1)).refinerCalls + 1 } := by
  rw [retryExec_succ S refine code (n + 1), h]

/-- C1 (amended): in the retry loop of `execute_single_analysis` with
`max_attempts = 3`, if the sandbox fails on attempts 1 and 2 then the sandbox
is invoked exactly three times (on the original code and its two refinements)
and the refiner exactly twice; if attempt 3 also fails the step ends
Exhausted without raising, with `result = None`, no figure paths, and an
output equal to the string `"Execution failed: "` followed by the attempt-3
error text unchanged (not the bare error text); if attempt 3 succeeds the
loop marks the step completed with the returned result. -/
theorem retry_three_attempts (S : String → Except String SandboxTriple)
    (refine : String → String → String) (c0 e1 e2 : String)
    (h1 : S c0 = Except.error e1)
    (h2 : S (refine c0 e1) = Except.error e2) :
    (retryExec S refine c0 3).sandboxTrace =
      [c0, refine c0 e1, refine (refine c0 e1) e2] ∧
    (retryExec S refine c0 3).refinerCalls = 2 ∧
    (∀ e3, S (refine (refine c0 e1) e2) = Except.error e3 →
      (retryExec S refine c0 3).ended = StepEnd.exhausted e3 ∧
      (retryExec S refine c0 3).output = "Execution failed: " ++ e3 ∧
      (retryExec S refine c0 3).setCompleted = false ∧
      (retryExec S refine c0 3).result = none ∧
      (retryExec S refine c0 3).figurePaths = []) ∧
    (∀ t, S (refine (refine c0 e1) e2) = Except.ok t →
      (retryExec S refine c0 3).ended = StepEnd.completed ∧
      (retryExec S refine c0 3).setCompleted = true ∧
      (retryExec S refine c0 3).result = t.result) := by
  rcases hS : S (refine (refine c0 e1) e2) with e3 | t
  · rw [retryExec_err_cont S refine c0 e1 1 h1,
      retryExec_err_cont S refine (refine c0 e1) e2 0 h2,
      retryExec_err_last S refine (refine (refine c0 e1) e2) e3 hS]
    refine ⟨rfl, rfl, fun e3' h3 => ?_, fun t' h3 => ?_⟩
    · injection h3 with h4
      subst h4
      exact ⟨rfl, rfl, rfl, rfl, rfl⟩
    · exact Except.noConfusion h3
  · rw [retryExec_err_cont S refine c0 e1 1 h1,
      retryExec_err_cont S refine (refine c0 e1) e2 0 h2,
      retryExec_ok S refine (refine (refine c0 e1) e2) 0 t hS]
    refine ⟨rfl, rfl, fun e3' h3 => ?_, fun t' h3 => ?_⟩
    · exact Except.noConfusion h3
    · injection h3 with h4
      subst h4
      exact ⟨rfl, rfl, rfl⟩

/-- C1 witness: a concrete always-failing sandbox run (three invocations,
Exhausted) and a concrete fails-twice-then-succeeds run (three invocations,
two refinements, Completed). -/
theorem retry_three_attempts_witness :
    (SboomFail "c" = Except.error "boom" ∧
      (retryExec SboomFail refineKeep "c" 3).ended = StepEnd.exhausted "boom" ∧
      (retryExec SboomFail refineKeep "c" 3).sandboxTrace.length = 3 ∧
      (retryExec SboomFail refineKeep "c" 3).refinerCalls = 2) ∧
    ((retryExec SthirdOk refineX "c" 3).ended = StepEnd.completed ∧
      (retryExec SthirdOk refineX "c" 3).sandboxTrace.length = 3 ∧
      (retryExec SthirdOk refineX "c" 3).refinerCalls = 2) := by
  have hA := retry_three_attempts SboomFail refineKeep "c" "boom" "boom" rfl rfl
  have hB := retry_three_attempts SthirdOk refineX "c" "boom" "boom" rfl rfl
  refine ⟨⟨rfl, (hA.2.2.1 "boom" rfl).1, ?_, hA.2.1⟩,
    ⟨(hB.2.2.2 { result := some "r", output := "out", figurePaths := [] }
        rfl).1, ?_, hB.2.1⟩⟩
  · rw [hA.1]
    rfl
  · rw [hB.1]
    rfl

/-- C1 counterexample: with a sandbox failing every attempt with message
`"boom"`, the loop ends Exhausted on that message but its output is not the
attempt-3 error text itself — it is prefixed with `"Execution failed: "`. -/
theorem retry_output_not_bare_error :
    (retryExec SboomFail refineKeep "c" 3).ended = StepEnd.exhausted "boom" ∧
    (retryExec SboomFail refineKeep "c" 3).output = "Execution failed: boom" ∧
    ¬((retryExec SboomFail refineKeep "c" 3).output = "boom") := by decide

/-- C2 (amended): when the executed code unit raises, `execute_code` does not
propagate the exception; it returns `result = None` and an empty figure-path
list, and the failure message is recorded inside the captured output text
(printed there by the `_prepare_code` wrapper).  The returned tuple has no
separate error field. -/
theorem execute_code_no_throw (tb : String → String) (b : CodeBehavior)
    (plt0 : List Fig) (e : String) (h : b.raises = some e) :
    (execute_code tb b plt0).raised = false ∧
    (execute_code tb b plt0).result = none ∧
    (execute_code tb b plt0).figurePaths = [] ∧
    (execute_code tb b plt0).output =
      b.printed ++ "Error during code execution: " ++ e ++ "\n" ++
        "Traceback: " ++ tb e ++ "\n" := by
  simp [execute_code, h]

/-- C2 witness: the no-throw contract evaluated on the concrete raising unit
`bFail`. -/
theorem execute_code_no_throw_witness :
    bFail.raises = some "X" ∧
    ((execute_code tbT bFail []).raised = false ∧
      (execute_code tbT bFail []).result = none ∧
      (execute_code tbT bFail []).figurePaths = [] ∧
      (execute_code tbT bFail []).output =
        bFail.printed ++ "Error during code execution: " ++ "X" ++ "\n" ++
          "Traceback: " ++ tbT "X" ++ "\n") :=
  ⟨rfl, execute_code_no_throw tbT bFail [] "X" rfl⟩

/-- C2 counterexample: a failing attempt (`bFail`, which raises `"X"`) and a
successful attempt (`bOk`, which completes normally after printing the same
error-shaped text and assigns no result) return exactly the same value from
`execute_code`, so the caller cannot distinguish them by inspecting the
returned outcome alone, and no error field is populated on failure. -/
theorem failed_and_successful_outcomes_equal :
    bFail.raises = some "X" ∧
    bOk.raises = none ∧
    execute_code tbT bFail [] = execute_code tbT bOk [] := by decide

/-- C5 (amended): an attempt that completes normally leaves the shared
rendering surface with zero open figures (the capture drains it), but an
attempt that raises leaves every figure it opened — plus any pre-existing
ones — open on the surface, since `review_and_refine` is only reached on
normal completion. -/
theorem surface_after_attempt (tb : String → String) (b : CodeBehavior)
    (plt0 : List Fig) :
    (execute_code tb b plt0).plt =
      match b.raises with
      | none => []
      | some _ => plt0 ++ b.figuresOpened := by
  cases h : b.raises <;> simp [execute_code, h, save_figures]

/-- C5 counterexample: a code unit that opens one figure and raises mid-plot
leaves that figure open after the attempt (not zero open figures), and the
next normally-completing attempt's capture emits the stale figure as its own
artifact. -/
theorem raising_attempt_leaves_open_figures :
    bPlotFail.raises = some "mid" ∧
    (execute_code tbT bPlotFail []).plt = [fig1] ∧
    ¬((execute_code tbT bPlotFail []).plt = []) ∧
    (execute_code tbT bNoop (execute_code tbT bPlotFail []).plt).figurePaths =
      [ "output/figures/figure_0.png"] := by decide

/-- C6: one capture call on a surface holding `N` open figures returns `N`
file paths (one numbered figure file written per path) and `N` metadata
records, and leaves the surface with zero open figures; an immediately
repeated capture returns zero paths, and a capture on an empty surface
returns empty lists as a normal result. -/
theorem capture_drains_surface (plt : List Fig) :
    (save_figures plt).1.length = plt.length ∧
    (save_figures plt).2.1.length = plt.length ∧
    (save_figures plt).2.2 = [] ∧
    (save_figures (save_figures plt).2.2).1 = [] ∧
    save_figures ([] : List Fig) = ([], [], []) := by
  simp [save_figures]

/-- C3 counterexample: merging a 1-step plan whose step `a` is completed with
recorded results against a proposal that reuses the name `a` with different
fields replaces the stored record by the proposal's (the completed work is
overwritten), and a proposal with an empty `analysis_steps` list removes the
step entirely — so the update is not additive-only. -/
theorem proposal_overwrites_and_removes :
    update_plan [stepA_done] (some [stepA_new]) = [stepA_new] ∧
    ¬(stepA_new = stepA_done) ∧
    update_plan [stepA_done] (some []) = [] := by decide

/-- C3 (amended): `update_plan` returns the Generator's proposed step list
verbatim whenever the parsed response carries the `analysis_steps` key —
proposals can overwrite or drop existing steps — and falls back to the
current plan only when the key is absent; it differs from the additive merge
the spec describes (`applyUpdateSpec`), as the concrete overwriting proposal
shows.  Additivity is requested only in the prompt text sent to the
Generator, not enforced in code. -/
theorem update_plan_returns_proposal :
    (∀ current proposal, update_plan current (some proposal) = proposal) ∧
    (∀ current, update_plan current none = current) ∧
    ¬(update_plan [stepA_done] (some [stepA_new]) =
        applyUpdateSpec [stepA_done] [stepA_new]) := by
  refine ⟨fun _ _ => rfl, fun _ => rfl, by decide⟩

/-- C4 (code bug, evaluated at the failing input): a step whose generated
code raises `Exception("boom")` on its only needed attempt is nevertheless
marked `completed` — `execute_code` swallows the exception and returns a
normal tuple, so the retry loop sees no failure, performs a single sandbox
call and zero refinements, and records the error text as the completed
step's output.  This contradicts the claim that a completed step has no
error in its last execution outcome (and the repository's own retry test,
which models a failing attempt as a raising `execute_code`). -/
theorem swallowed_failure_marks_step_completed :
    bBoom.raises = some "boom" ∧
    (execute_single_analysis_step SrealBoom refineKeep "code" "i" step0).status =
      "completed" ∧
    (execute_single_analysis_step SrealBoom refineKeep "code" "i" step0).output =
      some "Error during code execution: boom\nTraceback: T\n" ∧
    (retryExec SrealBoom refineKeep "code" 3).sandboxTrace.length = 1 ∧
    (retryExec SrealBoom refineKeep "code" 3).refinerCalls = 0 := by decide

/-- C7 counterexample: adding a 500-character finding stores it with all 500
characters — it is not truncated to the 200-character bound before storage
(truncation happens only when `summarize_data` renders it). -/
theorem finding_stored_untruncated :
    extend_key_findings [] [f500] = [f500] ∧
    f500.length = 500 ∧
    ¬(f500.length ≤ 200) := by
  have h5 : f500.length = 500 := by
    show (List.replicate 500 'a').length = 500
    exact List.length_replicate _ _
  refine ⟨rfl, h5, by omega⟩

/-- The global truncation step of `summarize_data` bounds any string by the
cap plus the marker length. -/
theorem trunc_le (s : String) :
    (if summarize_max_length < s.length then
      pyTake summarize_max_length s ++ truncMarker
    else s).length ≤ summarize_max_length + truncMarker.length := by
  split
  next h =>
    rw [String.length_append, length_pyTake]
    exact Nat.add_le_add_right (Nat.min_le_left _ _) _
  next h =>
    exact Nat.le_trans (Nat.le_of_not_lt h) (Nat.le_add_right _ _)

/-- The summary built by `summarize_data` never exceeds the local bound plus
the truncation marker. -/
theorem summarize_data_le (current completed : List AnalysisStep)
    (key_findings : List String) :
    (summarize_data current completed key_findings).length ≤
      summarize_max_length + truncMarker.length :=
  trunc_le _

/-- C7 (amended): findings are stored unmodified by `add`; each finding is
truncated to its first 200 characters only when `summarize_data` renders its
line; and the summary is capped at `max_length = 1000000` characters plus
the `"...(truncated)"` marker, so its length never exceeds
`max_length + 14` (it can exceed the configured bound itself by exactly the
marker's length). -/
theorem findings_stored_raw_summary_bounded :
    (∀ ledger newFindings,
      extend_key_findings ledger newFindings = ledger ++ newFindings) ∧
    (∀ f, renderFindingLine f = "- " ++ pyTake 200 f ++ "...\n") ∧
    (∀ current completed key_findings,
      (summarize_data current completed key_findings).length ≤
        summarize_max_length + truncMarker.length) :=
  ⟨fun _ _ => rfl, fun _ => rfl, summarize_data_le⟩

/-- C8 counterexample: with a prior snapshot present at the plan path, saving
a new plan leaves the file system holding only the new snapshot at the plan
path — the prior version is recoverable from no path (no numbered backup is
written) — refuting the backup-before-overwrite contract. -/
theorem snapshot_overwrites_without_backup :
    save_plan_to_file [stepA_new] fs0 =
      [(plan_file, PlanContent.tasksObj [stepA_new])] ∧
    ¬(PlanContent.tasksObj [stepA_done] ∈
        (save_plan_to_file [stepA_new] fs0).map Prod.snd) := by decide

/-- Filtering out the entries at a key leaves lookups at other keys
unchanged. -/
theorem lookup_filter_ne {β : Type} (l : List (String × β)) (p k : String)
    (h : ¬(p = k)) :
    (l.filter (fun q => !(q.1 == k))).lookup p = l.lookup p := by
  have hpk : (p == k) = false := by simp [h]
  induction l with
  | nil => rfl
  | cons q rest ih =>
    by_cases hq : q.1 = k
    · simp [List.filter_cons, hq, List.lookup, hpk, ih]
    · cases hpq : p == q.1 <;> simp [List.filter_cons, hq, List.lookup, hpq, ih]

/-- C8 (amended): `save_plan_to_file` writes the plan as the JSON object
`{"tasks": [...]}` to the plan file, overwriting any prior snapshot in
place, and touches no other path — there is no numbered backup copy and no
emergency alternate-path write in the source (a write failure would simply
propagate). -/
theorem save_plan_writes_only_plan_file (tasks : List AnalysisStep)
    (fs : List (String × PlanContent)) (p : String) :
    (save_plan_to_file tasks fs).lookup p =
      if p = plan_file then some (PlanContent.tasksObj tasks)
      else fs.lookup p := by
  by_cases h : p = plan_file
  · subst h
    simp [save_plan_to_file, writeFile, List.lookup]
  · have hpb : (p == plan_file) = false := by simp [h]
    simp [save_plan_to_file, writeFile, List.lookup, h, hpb,
      lookup_filter_ne fs p plan_file h]

/-- C9 (code bug, evaluated at the failing input): a code unit whose
wall-clock duration (301 s) exceeds `CODE_EXECUTION_TIMEOUT = 300` is still
run to normal completion by `execute_code`, returning its ordinary outcome
with no `"deadline exceeded"` failure; indeed the sandbox result is entirely
independent of the unit's duration — the configured timeout is never
consulted anywhere in `execute_code`. -/
theorem timeout_never_enforced :
    CODE_EXECUTION_TIMEOUT < bLong.duration ∧
    execute_code tbT bLong [] =
      { result := some "v", output := "hi\n", figurePaths := []
        plt := [], raised := false } ∧
    (∀ tb b plt0 d,
      execute_code tb { b with duration := d } plt0 = execute_code tb b plt0) := by
  refine ⟨by decide, by decide, fun tb b plt0 d => ?_⟩
  cases b with
  | mk printed raises resultVar figuresOpened duration =>
    cases raises <;> rfl

/-- C10: the execution path applies no blacklist gate: the retry loop hands
the generated code unit to the sandbox verbatim as its first invocation for
every code unit whatsoever (in particular for the output of
`generate_code`, which itself only sanitizes and parameterizes), while
`validate_code` — which would reject `evilCode` for containing `os.system`
and accept `benignCode` — is invoked nowhere on that path, so forbidden and
clean code units are executed identically. -/
theorem blacklist_not_on_execution_path :
    (∀ (S : String → Except String SandboxTriple)
      (refine : String → String → String) (code : String),
      (retryExec S refine code 3).sandboxTrace.head? = some code) ∧
    (∀ astNorm (S : String → Except String SandboxTriple)
      (refine : String → String → String) (resp : String),
      (retryExec S refine (generate_code_model astNorm resp) 3).sandboxTrace.head? =
        some (generate_code_model astNorm resp)) ∧
    validate_code evilCode = false ∧
    validate_code benignCode = true := by
  have hmain : ∀ (S : String → Except String SandboxTriple)
      (refine : String → String → String) (code : String),
      (retryExec S refine code 3).sandboxTrace.head? = some code := by
    intro S refine code
    rcases hS : S code with e | t
    · rw [retryExec_err_cont S refine code e 1 hS]
      rfl
    · rw [retryExec_ok S refine code 2 t hS]
      rfl
  exact ⟨hmain, fun astNorm S refine resp => hmain S refine _, by decide, by decide⟩

end AutoDS


